import Mathlib

/-!
Verification development for the revup-backend session-credential core.

The definitions below are a shallow embedding of the JavaScript source:
  * `src/services/authService.js`  — the `AuthService` class (user directory
    access through Supabase, password hashing, JWT minting, and the token
    store kept in the `enterprise_configs` table),
  * `src/controllers/authController.js` — the HTTP-level session operations
    (register, login, logout, refreshToken, forgotPassword, resetPassword,
    changePassword, deleteAccount),
  * `src/middleware/auth.js` — the request authenticator.

Modelling conventions:
  * Supabase tables become Lean lists inside a `DB` record; `.eq` filters
    become `List.filter`, `.single()` becomes `singleRow` (exactly one row,
    else error/null as in the source), `.contains('config_data', {...})`
    becomes a field comparison, inserts become list append.
  * bcrypt is modelled ideally: a hash remembers the password it was derived
    from and `bcryptCompare` succeeds exactly on that password.
  * JWTs are modelled by their decoded content plus the signing secret and
    absolute expiry; `jwtVerify` succeeds iff the secret matches and the
    embedded expiry has not passed, mirroring `jsonwebtoken.verify`.
    A random hex token (crypto.randomBytes) never verifies as a JWT.
  * Time is an absolute number of milliseconds `nowMs` passed explicitly;
    `Date.now()` at the moment of the call is modelled by that parameter.
-/

namespace RevUp

/-- Ideal model of a bcrypt hash: `bcrypt.hash(pw, 12)` yields a value that
verifies exactly against `pw`. -/
structure Hashed where
  ofPw : String
deriving DecidableEq, Repr

/-- Model of `bcrypt.compare(password, hash)`. -/
def bcryptCompare (password : String) (h : Hashed) : Bool :=
  h.ofPw == password

/-- Stand-in for the `process.env.JWT_SECRET` signing secret. -/
def JWT_SECRET : String := "access-secret"

/-- Stand-in for the `process.env.JWT_REFRESH_SECRET` signing secret. -/
def JWT_REFRESH_SECRET : String := "refresh-secret"

/-- Token values handled by the system: a signed access JWT (payload of
`generateAccessToken`), a signed refresh JWT (payload of
`generateRefreshToken`), or an unsigned random hex string
(`generatePasswordResetToken`, i.e. `crypto.randomBytes(32).toString('hex')`). -/
inductive TokenVal where
  | accessJwt (userId : Nat) (email : String) (enterpriseId : Nat)
      (role : Option String) (secret : String) (expMs : Nat)
  | refreshJwt (userId : Nat) (enterpriseId : Nat) (typ : String)
      (secret : String) (expMs : Nat)
  | randomHex (value : String)
deriving DecidableEq, Repr

/-- Model of `jwt.verify(token, secret)` as used by the refresh controller:
returns the `userId` claim when the signature checks out under `secret` and
the embedded expiry has not passed; otherwise the call throws, modelled as
`none`. A random hex value is not a JWT and never verifies. -/
def jwtVerifyUserId (tok : TokenVal) (secret : String) (nowMs : Nat) : Option Nat :=
  match tok with
  | .accessJwt u _ _ _ s exp => if s == secret && nowMs < exp then some u else none
  | .refreshJwt u _ _ s exp => if s == secret && nowMs < exp then some u else none
  | .randomHex _ => none

/-- Row of the Supabase `users` table (fields used by the session core). -/
structure UserRec where
  id : Nat
  enterpriseId : Nat
  name : String
  email : String
  passwordHash : Hashed
  roleId : Nat
  isActive : Bool
  emailVerified : Bool
deriving DecidableEq, Repr

/-- Row of the Supabase `roles` table (fields used by `createUser` and the
`roles:role_id` join). -/
structure RoleRec where
  id : Nat
  enterpriseId : Nat
  name : String
deriving DecidableEq, Repr

/-- Row of the Supabase `enterprise_configs` table as used as a token store:
`config_type` is `"refresh_tokens"` or `"password_reset_tokens"` and
`config_data` holds `{userId, token, expiresAt}`. -/
structure ConfigRec where
  enterpriseId : Nat
  configType : String
  userId : Nat
  token : TokenVal
  expiresAtMs : Nat
deriving DecidableEq, Repr

/-- The persistent state visible to the session core. -/
structure DB where
  users : List UserRec
  roles : List RoleRec
  configs : List ConfigRec
deriving DecidableEq, Repr

/-- JS `String.prototype.toLowerCase()` (character-wise lowering), defined
over the character list so that it reduces inside the kernel. -/
def strToLower (s : String) : String :=
  ⟨s.data.map Char.toLower⟩

/-- Supabase `.single()`: succeeds exactly when the filtered result set has
one row; zero or several rows produce an error, which every caller in the
source turns into `null`. -/
def singleRow {α : Type} (l : List α) : Option α :=
  match l with
  | [a] => some a
  | _ => none

/-- `AuthService.findUserByEmail`: `.eq('email', email.toLowerCase())`,
`.eq('is_active', true)`, `.single()`. -/
def findUserByEmail (email : String) (db : DB) : Option UserRec :=
  singleRow (db.users.filter (fun u => u.email == strToLower email && u.isActive))

/-- `AuthService.findUserById`: `.eq('id', id)`, `.eq('is_active', true)`,
`.single()`. -/
def findUserById (id : Nat) (db : DB) : Option UserRec :=
  singleRow (db.users.filter (fun u => u.id == id && u.isActive))

/-- The `roles:role_id` join used when minting an access token
(`user.roles?.name`). -/
def userRoleName (u : UserRec) (db : DB) : Option String :=
  (db.roles.find? (fun r => r.id == u.roleId)).map (fun r => r.name)

/-- `AuthService.generateAccessToken`: JWT over
`{userId, email, enterpriseId, role}` signed with `JWT_SECRET`,
`expiresIn: '15m'`. -/
def generateAccessToken (u : UserRec) (db : DB) (nowMs : Nat) : TokenVal :=
  .accessJwt u.id u.email u.enterpriseId (userRoleName u db) JWT_SECRET
    (nowMs + 15 * 60 * 1000)

/-- `AuthService.generateRefreshToken`: JWT over
`{userId, enterpriseId, type: 'refresh'}` signed with `JWT_REFRESH_SECRET`,
`expiresIn: '7d'`. -/
def generateRefreshToken (u : UserRec) (nowMs : Nat) : TokenVal :=
  .refreshJwt u.id u.enterpriseId "refresh" JWT_REFRESH_SECRET
    (nowMs + 7 * 24 * 60 * 60 * 1000)

/-- Role-resolution block of `AuthService.createUser`: the provided
`roleId`, or else the enterprise's single `AE` role (`.single()`); absence
makes the source throw `'Default role not found for enterprise'`. -/
def resolveRoleId (roleId : Option Nat) (enterpriseId : Nat) (db : DB) :
    Option Nat :=
  match roleId with
  | some r => some r
  | none =>
    (singleRow (db.roles.filter (fun r => r.enterpriseId == enterpriseId && r.name == "AE"))).map
      (fun r => r.id)

/-- `AuthService.createUser`: hashes the password, resolves the role id, and
inserts the user row with `is_active: true`, `email_verified: false`.
Returns the created row and the new state; `none` models the throw. -/
def createUser (newId : Nat) (name email password : String) (enterpriseId : Nat)
    (roleId : Option Nat) (db : DB) : Option (UserRec × DB) :=
  match resolveRoleId roleId enterpriseId db with
  | none => none
  | some rid =>
    let u : UserRec :=
      { id := newId, enterpriseId := enterpriseId, name := name,
        email := strToLower email, passwordHash := ⟨password⟩, roleId := rid,
        isActive := true, emailVerified := false }
    some (u, { db with users := db.users ++ [u] })

/-- `AuthService.saveRefreshToken`: re-fetches the user to obtain
`enterprise_id` (a `null` user makes the JS throw — `none`) and inserts a
`refresh_tokens` config row expiring 7 days from now. -/
def saveRefreshToken (userId : Nat) (tok : TokenVal) (nowMs : Nat) (db : DB) :
    Option DB :=
  match findUserById userId db with
  | none => none
  | some u =>
    some { db with configs := db.configs ++
      [{ enterpriseId := u.enterpriseId, configType := "refresh_tokens",
         userId := userId, token := tok,
         expiresAtMs := nowMs + 7 * 24 * 60 * 60 * 1000 }] }

/-- `AuthService.savePasswordResetToken`: same shape with
`config_type: 'password_reset_tokens'` and a 1 hour expiry. -/
def savePasswordResetToken (userId : Nat) (tok : TokenVal) (nowMs : Nat) (db : DB) :
    Option DB :=
  match findUserById userId db with
  | none => none
  | some u =>
    some { db with configs := db.configs ++
      [{ enterpriseId := u.enterpriseId, configType := "password_reset_tokens",
         userId := userId, token := tok,
         expiresAtMs := nowMs + 60 * 60 * 1000 }] }

/-- `AuthService.findRefreshToken`: selects the `refresh_tokens` rows whose
`config_data` contains the token, takes `configs[0]`, and returns `null`
when absent or when `config_data.expiresAt` lies in the past. -/
def findRefreshToken (tok : TokenVal) (nowMs : Nat) (db : DB) : Option ConfigRec :=
  match (db.configs.filter
      (fun c => c.configType == "refresh_tokens" && c.token == tok)).head? with
  | none => none
  | some r => if r.expiresAtMs < nowMs then none else some r

/-- `AuthService.removeRefreshToken`: deletes every `refresh_tokens` row whose
`config_data` contains the token. -/
def removeRefreshToken (tok : TokenVal) (db : DB) : DB :=
  let kept := db.configs.filter
    (fun c => !(c.configType == "refresh_tokens" && c.token == tok))
  { db with configs := kept }

/-- `AuthService.removeAllUserRefreshTokens`: deletes every `refresh_tokens`
row whose `config_data` contains the user id. -/
def removeAllUserRefreshTokens (userId : Nat) (db : DB) : DB :=
  let kept := db.configs.filter
    (fun c => !(c.configType == "refresh_tokens" && c.userId == userId))
  { db with configs := kept }

/-- The password update `update({password_hash}).eq('id', userId)` shared by
`changePassword` and `resetPasswordWithToken` (no `is_active` filter). -/
def updateUserPassword (userId : Nat) (h : Hashed) (db : DB) : DB :=
  let updated := db.users.map
    (fun u => if u.id == userId then { u with passwordHash := h } else u)
  { db with users := updated }

/-- `AuthService.deleteUser`: soft delete (`is_active: false` on the user
row) followed by `removeAllUserRefreshTokens`. -/
def deleteUser (userId : Nat) (db : DB) : Bool × DB :=
  let softDeleted := db.users.map
    (fun u => if u.id == userId then { u with isActive := false } else u)
  let db1 : DB := { db with users := softDeleted }
  (true, removeAllUserRefreshTokens userId db1)

/-- `AuthService.resetPasswordWithToken`: looks the token up among the
`password_reset_tokens` rows (`configs[0]`), fails on absence or expiry,
otherwise re-hashes, updates the user's password and deletes every row that
contains the token. -/
def resetPasswordWithToken (tok : TokenVal) (newPassword : String) (nowMs : Nat)
    (db : DB) : Bool × DB :=
  match (db.configs.filter
      (fun c => c.configType == "password_reset_tokens" && c.token == tok)).head? with
  | none => (false, db)
  | some rt =>
    if rt.expiresAtMs < nowMs then (false, db)
    else
      let db1 := updateUserPassword rt.userId ⟨newPassword⟩ db
      let kept := db1.configs.filter
        (fun c => !(c.configType == "password_reset_tokens" && c.token == tok))
      (true, { db1 with configs := kept })

/-- `AuthService.changePassword`: fetches `password_hash` by id (no
`is_active` filter), verifies the current password, then updates. -/
def changePassword (userId : Nat) (currentPassword newPassword : String)
    (db : DB) : Bool × DB :=
  match singleRow (db.users.filter (fun u => u.id == userId)) with
  | none => (false, db)
  | some u =>
    if !(bcryptCompare currentPassword u.passwordHash) then (false, db)
    else (true, updateUserPassword userId ⟨newPassword⟩ db)

/-- `AuthService.cleanupExpiredTokens`: deletes expired `refresh_tokens`
rows, then expired `password_reset_tokens` rows. -/
def cleanupExpiredTokens (nowMs : Nat) (db : DB) : DB :=
  let kept1 := db.configs.filter
    (fun c => !(c.configType == "refresh_tokens" && c.expiresAtMs < nowMs))
  let db1 : DB := { db with configs := kept1 }
  let kept2 := db1.configs.filter
    (fun c => !(c.configType == "password_reset_tokens" && c.expiresAtMs < nowMs))
  { db1 with configs := kept2 }

/-- Result of the `login` / `register` controllers: an error response
(`status`, `message`) or the issued token pair. The JSON `success` flag is
`true` exactly on `ok`. -/
inductive LoginRes where
  | err (status : Nat) (message : String)
  | ok (accessToken refreshTok : TokenVal)
deriving DecidableEq, Repr

/-- `authController.login`: directory lookup (401 `'Invalid credentials,
user not found'` on failure), bcrypt check (401 `'Invalid credentials, check
your password'` on failure), then mints an access and a refresh token and
responds. No store write happens on this path — the generated refresh token
is returned but `saveRefreshToken` is not called. -/
def loginOp (email password : String) (nowMs : Nat) (db : DB) : LoginRes × DB :=
  match findUserByEmail email db with
  | none => (.err 401 "Invalid credentials, user not found", db)
  | some user =>
    if !(bcryptCompare password user.passwordHash) then
      (.err 401 "Invalid credentials, check your password", db)
    else
      (.ok (generateAccessToken user db nowMs) (generateRefreshToken user nowMs), db)

/-- `authController.register`: duplicate check, `createUser`, token minting,
`saveRefreshToken`, 201 response; a service throw yields the 500 handler.
`newId` stands for the row id Supabase generates for the insert. -/
def registerOp (newId : Nat) (name email password : String) (enterpriseId : Nat)
    (roleId : Option Nat) (nowMs : Nat) (db : DB) : LoginRes × DB :=
  match findUserByEmail email db with
  | some _ => (.err 400 "User already exists with this email", db)
  | none =>
    match createUser newId name email password enterpriseId roleId db with
    | none => (.err 500 "Error registering user", db)
    | some (user, db1) =>
      let accessToken := generateAccessToken user db1 nowMs
      let refreshTok := generateRefreshToken user nowMs
      match saveRefreshToken user.id refreshTok nowMs db1 with
      | none => (.err 500 "Error registering user", db1)
      | some db2 => (.ok accessToken refreshTok, db2)

/-- Plain `{status, message}` responses. -/
structure SimpleRes where
  status : Nat
  message : String
deriving DecidableEq, Repr

/-- `authController.logout`: deletes the presented refresh token when one is
in the body, and always responds 200 `'Logout successful'`. -/
def logoutOp (tok : Option TokenVal) (db : DB) : SimpleRes × DB :=
  match tok with
  | none => (⟨200, "Logout successful"⟩, db)
  | some t => (⟨200, "Logout successful"⟩, removeRefreshToken t db)

/-- Result of the `refreshToken` controller. -/
inductive RefreshRes where
  | err (status : Nat) (message : String)
  | ok (accessToken : TokenVal)
deriving DecidableEq, Repr

/-- `authController.refreshToken`: requires a token in the body, verifies it
with `JWT_REFRESH_SECRET` (a throw lands in the catch block: 401 `'Invalid
refresh token'`), requires it to exist unexpired in the store (same 401),
resolves the user (401 `'User not found'`), then mints a new access token
only. -/
def refreshOp (tok : Option TokenVal) (nowMs : Nat) (db : DB) : RefreshRes × DB :=
  match tok with
  | none => (.err 400 "Refresh token is required", db)
  | some t =>
    match jwtVerifyUserId t JWT_REFRESH_SECRET nowMs with
    | none => (.err 401 "Invalid refresh token", db)
    | some userId =>
      match findRefreshToken t nowMs db with
      | none => (.err 401 "Invalid refresh token", db)
      | some _ =>
        match findUserById userId db with
        | none => (.err 401 "User not found", db)
        | some user => (.ok (generateAccessToken user db nowMs), db)

/-- The anti-enumeration response body of `forgotPassword`. -/
def forgotMsg : String :=
  "If an account with that email exists, a password reset link has been sent"

/-- Response of `forgotPassword`, together with the email dispatches the
handler performs (`emailsSent`); the `emailService` call in the source is
commented out, so the handler never dispatches. -/
structure ForgotRes where
  status : Nat
  message : String
  emailsSent : List (String × TokenVal)
deriving DecidableEq, Repr

/-- `authController.forgotPassword`: on an unknown email responds success
without touching the store; otherwise persists a fresh reset token
(`resetTok` stands for the `crypto.randomBytes` value) and responds with the
same message. The email dispatch line is commented out in the source, so
`emailsSent` is always `[]`. -/
def forgotPasswordOp (email : String) (resetTok : TokenVal) (nowMs : Nat)
    (db : DB) : ForgotRes × DB :=
  match findUserByEmail email db with
  | none => (⟨200, forgotMsg, []⟩, db)
  | some user =>
    match savePasswordResetToken user.id resetTok nowMs db with
    | none => (⟨500, "Error processing password reset request", []⟩, db)
    | some db1 => (⟨200, forgotMsg, []⟩, db1)

/-- `authController.resetPassword`: validates the password length, then
delegates to `resetPasswordWithToken`; `false` maps to 400 `'Invalid or
expired reset token'`. -/
def resetPasswordOp (tok : TokenVal) (password : String) (nowMs : Nat)
    (db : DB) : SimpleRes × DB :=
  if password.length < 6 then
    (⟨400, "Password must be at least 6 characters long"⟩, db)
  else
    match resetPasswordWithToken tok password nowMs db with
    | (false, db1) => (⟨400, "Invalid or expired reset token"⟩, db1)
    | (true, db1) => (⟨200, "Password reset successful"⟩, db1)

/-- `authController.changePassword`: delegates to the service; `false` maps
to 400 `'Current password is incorrect'`. -/
def changePasswordOp (userId : Nat) (currentPassword newPassword : String)
    (db : DB) : SimpleRes × DB :=
  match changePassword userId currentPassword newPassword db with
  | (false, db1) => (⟨400, "Current password is incorrect"⟩, db1)
  | (true, db1) => (⟨200, "Password changed successfully"⟩, db1)

/-- `authController.deleteAccount`: delegates to `deleteUser` and responds
200. -/
def deleteAccountOp (userId : Nat) (db : DB) : SimpleRes × DB :=
  (⟨200, "Account deleted successfully"⟩, (deleteUser userId db).2)

/-- Alphabet of the Session Authority operations, used to quantify over
arbitrary sequences of later calls. Nondeterministic inputs (generated row
ids, random reset tokens, call times) appear as parameters. -/
inductive Op where
  | register (newId : Nat) (name email password : String) (enterpriseId : Nat)
      (roleId : Option Nat) (nowMs : Nat)
  | login (email password : String) (nowMs : Nat)
  | logout (tok : Option TokenVal)
  | refresh (tok : Option TokenVal) (nowMs : Nat)
  | forgot (email : String) (resetTok : TokenVal) (nowMs : Nat)
  | resetPw (tok : TokenVal) (password : String) (nowMs : Nat)
  | changePw (userId : Nat) (currentPassword newPassword : String)
  | deleteAccount (userId : Nat)
  | sweep (nowMs : Nat)
deriving DecidableEq, Repr

/-- State effect of one Session Authority operation. -/
def stepOp (op : Op) (db : DB) : DB :=
  match op with
  | .register newId name email password ent roleId now =>
    (registerOp newId name email password ent roleId now db).2
  | .login email password now => (loginOp email password now db).2
  | .logout tok => (logoutOp tok db).2
  | .refresh tok now => (refreshOp tok now db).2
  | .forgot email rt now => (forgotPasswordOp email rt now db).2
  | .resetPw tok pw now => (resetPasswordOp tok pw now db).2
  | .changePw uid cur next => (changePasswordOp uid cur next db).2
  | .deleteAccount uid => (deleteAccountOp uid db).2
  | .sweep now => cleanupExpiredTokens now db

/-- State after a sequence of operations. -/
def runOps (ops : List Op) (db : DB) : DB :=
  ops.foldl (fun d o => stepOp o d) db

/-- Whether a `refresh_tokens` row holding exactly this token value is in
the store. -/
def hasRefreshTok (tok : TokenVal) (db : DB) : Bool :=
  db.configs.any (fun c => c.configType == "refresh_tokens" && c.token == tok)

/-- Whether a `password_reset_tokens` row holding exactly this token value
is in the store. -/
def hasResetTok (tok : TokenVal) (db : DB) : Bool :=
  db.configs.any (fun c => c.configType == "password_reset_tokens" && c.token == tok)

/-- The only operation that inserts a `refresh_tokens` row is `register`,
and the row it inserts holds precisely the refresh token it mints. -/
def opIssuesRefresh (op : Op) (tok : TokenVal) : Bool :=
  match op with
  | .register newId _ _ _ ent _ now =>
    tok == .refreshJwt newId ent "refresh" JWT_REFRESH_SECRET
      (now + 7 * 24 * 60 * 60 * 1000)
  | _ => false

/-- The only operation that inserts a `password_reset_tokens` row is
`forgot`, and the row it inserts holds precisely its generated token. -/
def opIssuesReset (op : Op) (tok : TokenVal) : Bool :=
  match op with
  | .forgot _ rt _ => rt == tok
  | _ => false

/-- Whether `pat` begins the list `l` (JS: the candidate match position of
`String.prototype.replace` with a string pattern). -/
def listStartsWith : List Char → List Char → Bool
  | [], _ => true
  | _ :: _, [] => false
  | p :: ps, c :: cs => p == c && listStartsWith ps cs

/-- JS `s.replace(pat, '')` with a string pattern: removes the first
occurrence of `pat` from `s` (leftmost match position), or leaves `s`
untouched when `pat` does not occur. -/
def replaceFirstAux (pat : List Char) : List Char → List Char
  | [] => []
  | c :: rest =>
    if listStartsWith pat (c :: rest) then (c :: rest).drop pat.length
    else c :: replaceFirstAux pat rest

/-- Whether `pat` occurs as a contiguous substring of `l`. -/
def hasOccur (pat : List Char) : List Char → Bool
  | [] => pat.isEmpty
  | c :: rest => listStartsWith pat (c :: rest) || hasOccur pat rest

/-- String-level wrapper of `replaceFirstAux`. -/
def replaceFirst (pat s : String) : String :=
  ⟨replaceFirstAux pat.data s.data⟩

/-- Outcome of the request authenticator: the 401 `'Access denied. No token
provided.'` rejection, the 401 `'Invalid token.'` rejection from the catch
block, or the decoded principal placed in `req.user`. -/
inductive AuthOutcome (ρ : Type) where
  | missingToken
  | invalidToken
  | authorized (principal : ρ)
deriving DecidableEq, Repr

/-- Mapping of `jwt.verify`'s result to the middleware outcome: a throw is
caught as `invalidToken`, otherwise the decoded value is exposed. -/
def verdict {ρ : Type} (v : Option ρ) : AuthOutcome ρ :=
  match v with
  | none => .invalidToken
  | some p => .authorized p

/-- `middleware/auth.js`: reads the `Authorization` header, strips the first
occurrence of the literal `"Bearer "` (JS `header?.replace('Bearer ', '')`),
rejects an absent or empty result as missing, and hands the remainder to
signature verification (`jwt.verify(token, process.env.JWT_SECRET)`,
abstracted as `verify`). -/
def authMiddleware {ρ : Type} (verify : String → Option ρ) (hdr : Option String) :
    AuthOutcome ρ :=
  match hdr with
  | none => .missingToken
  | some h =>
    let token := replaceFirst "Bearer " h
    if token == "" then .missingToken
    else verdict (verify token)


/-! Concrete fixtures used by closed-form theorems and witnesses. -/

/-- Sample active user row. -/
def alice : UserRec :=
  { id := 1, enterpriseId := 10, name := "Alice", email := "alice@x.com",
    passwordHash := ⟨"pw123"⟩, roleId := 5, isActive := true,
    emailVerified := false }

/-- Sample `AE` role row for enterprise 10. -/
def roleAE : RoleRec := ⟨5, 10, "AE"⟩

/-- State with one active user and an empty token store. -/
def dbAlice : DB := { users := [alice], roles := [roleAE], configs := [] }

/-- A refresh token value for `alice`. -/
def aliceRefreshTok : TokenVal :=
  .refreshJwt 1 10 "refresh" JWT_REFRESH_SECRET 999999

/-- A password-reset token value for `alice`. -/
def aliceResetTok : TokenVal := .randomHex "deadbeef"

/-- Stored refresh-token row for `alice`. -/
def aliceRefreshRec : ConfigRec := ⟨10, "refresh_tokens", 1, aliceRefreshTok, 999999⟩

/-- Stored password-reset-token row for `alice`. -/
def aliceResetRec : ConfigRec := ⟨10, "password_reset_tokens", 1, aliceResetTok, 999999⟩

/-- State with one active user holding one stored token of each kind. -/
def dbAliceTokens : DB :=
  { users := [alice], roles := [roleAE],
    configs := [aliceRefreshRec, aliceResetRec] }

/-- Sample deactivated user row. -/
def victor : UserRec :=
  { id := 2, enterpriseId := 10, name := "Victor", email := "victor@x.com",
    passwordHash := ⟨"vpw"⟩, roleId := 5, isActive := false,
    emailVerified := true }

/-- A refresh token value for the deactivated user. -/
def victorRefreshTok : TokenVal :=
  .refreshJwt 2 10 "refresh" JWT_REFRESH_SECRET 999999

/-- State where the deactivated user still holds a stored, unexpired
refresh token. -/
def dbVictor : DB :=
  { users := [victor], roles := [roleAE],
    configs := [⟨10, "refresh_tokens", 2, victorRefreshTok, 999999⟩] }

/-- Sample verifier for exercising the request authenticator. -/
def vTest : String → Option Nat :=
  fun s => if s = "tok123" then some 1 else none

/-! Helper lemmas about the token store and the operations. -/

/-- Filtering can only remove rows, so a predicate absent from a list stays
absent from any filtered sublist. -/
theorem any_filter_false {α : Type} {p q : α → Bool} {l : List α}
    (h : l.any p = false) : (l.filter q).any p = false := by
  rw [List.any_eq_false] at h ⊢
  intro a ha
  exact h a (List.mem_of_mem_filter ha)

/-- A row deleted by its own predicate cannot survive the deletion. -/
theorem any_filter_not_self {α : Type} (p : α → Bool) (l : List α) :
    (l.filter (fun a => !(p a))).any p = false := by
  rw [List.any_eq_false]
  intro a ha
  have := (List.mem_filter.mp ha).2
  simp only [Bool.not_eq_true'] at this
  simp [this]

/-- `loginOp` never writes to the database. -/
theorem loginOp_snd (email password : String) (nowMs : Nat) (db : DB) :
    (loginOp email password nowMs db).2 = db := by
  unfold loginOp
  cases findUserByEmail email db with
  | none => rfl
  | some user => by_cases h : bcryptCompare password user.passwordHash <;> simp [h]

/-- `refreshOp` never writes to the database. -/
theorem refreshOp_snd (tok : Option TokenVal) (nowMs : Nat) (db : DB) :
    (refreshOp tok nowMs db).2 = db := by
  unfold refreshOp
  repeat' split
  all_goals rfl

/-- Shape of a successful `createUser`: the created row carries the inputs
and the token store is untouched. -/
theorem createUser_spec {newId : Nat} {n e p : String} {ent : Nat}
    {r : Option Nat} {db : DB} {user : UserRec} {db1 : DB}
    (h : createUser newId n e p ent r db = some (user, db1)) :
    user.id = newId ∧ user.enterpriseId = ent ∧ db1.configs = db.configs := by
  unfold createUser at h
  split at h
  · exact absurd h (by simp)
  · simp only [Option.some.injEq, Prod.mk.injEq] at h
    obtain ⟨hu, hdb⟩ := h
    subst hu
    subst hdb
    exact ⟨rfl, rfl, rfl⟩

/-- Shape of a successful `saveRefreshToken`: exactly one `refresh_tokens`
row holding the given token is appended. -/
theorem saveRefreshToken_spec {uid : Nat} {tok : TokenVal} {now : Nat}
    {db db2 : DB} (h : saveRefreshToken uid tok now db = some db2) :
    ∃ E, db2.configs = db.configs ++
      [⟨E, "refresh_tokens", uid, tok, now + 7 * 24 * 60 * 60 * 1000⟩] := by
  unfold saveRefreshToken at h
  split at h
  · exact absurd h (by simp)
  · rename_i u hu
    simp only [Option.some.injEq] at h
    subst h
    exact ⟨u.enterpriseId, rfl⟩

/-- Shape of a successful `savePasswordResetToken`: exactly one
`password_reset_tokens` row holding the given token is appended. -/
theorem savePasswordResetToken_spec {uid : Nat} {tok : TokenVal} {now : Nat}
    {db db2 : DB} (h : savePasswordResetToken uid tok now db = some db2) :
    ∃ E, db2.configs = db.configs ++
      [⟨E, "password_reset_tokens", uid, tok, now + 60 * 60 * 1000⟩] := by
  unfold savePasswordResetToken at h
  split at h
  · exact absurd h (by simp)
  · rename_i u hu
    simp only [Option.some.injEq] at h
    subst h
    exact ⟨u.enterpriseId, rfl⟩

/-- `resetPasswordWithToken` leaves the store unchanged or deletes exactly
the rows holding the presented token. -/
theorem resetPasswordWithToken_configs (tok : TokenVal) (pw : String)
    (now : Nat) (db : DB) :
    ((resetPasswordWithToken tok pw now db).2).configs = db.configs ∨
    ((resetPasswordWithToken tok pw now db).2).configs =
      db.configs.filter
        (fun c => !(c.configType == "password_reset_tokens" && c.token == tok)) := by
  unfold resetPasswordWithToken
  split
  · exact Or.inl rfl
  · split
    · exact Or.inl rfl
    · exact Or.inr rfl

/-- Controller-level version of `resetPasswordWithToken_configs`. -/
theorem resetPasswordOp_configs (tok : TokenVal) (pw : String) (now : Nat)
    (db : DB) :
    ((resetPasswordOp tok pw now db).2).configs = db.configs ∨
    ((resetPasswordOp tok pw now db).2).configs =
      db.configs.filter
        (fun c => !(c.configType == "password_reset_tokens" && c.token == tok)) := by
  unfold resetPasswordOp
  split
  · exact Or.inl rfl
  · split
    · rename_i db1 heq
      have h2 : (resetPasswordWithToken tok pw now db).2 = db1 := by rw [heq]
      rcases resetPasswordWithToken_configs tok pw now db with h | h
      · exact Or.inl (h2 ▸ h)
      · exact Or.inr (h2 ▸ h)
    · rename_i db1 heq
      have h2 : (resetPasswordWithToken tok pw now db).2 = db1 := by rw [heq]
      rcases resetPasswordWithToken_configs tok pw now db with h | h
      · exact Or.inl (h2 ▸ h)
      · exact Or.inr (h2 ▸ h)

/-- `changePasswordOp` never touches the token store. -/
theorem changePasswordOp_configs (uid : Nat) (cur next : String) (db : DB) :
    ((changePasswordOp uid cur next db).2).configs = db.configs := by
  unfold changePasswordOp changePassword
  split
  · rename_i db1 heq
    split at heq
    · simp only [Prod.mk.injEq] at heq; rw [← heq.2]
    · split at heq <;> simp only [Prod.mk.injEq] at heq
      · rw [← heq.2]
      · rw [← heq.2]; rfl
  · rename_i db1 heq
    split at heq
    · simp only [Prod.mk.injEq] at heq; rw [← heq.2]
    · split at heq <;> simp only [Prod.mk.injEq] at heq
      · rw [← heq.2]
      · rw [← heq.2]; rfl

/-- Every token-store row present after one operation was already present
before it, except for the single row that `register` (refresh kind) or
`forgot` (reset kind) inserts. -/
theorem stepOp_configs_sub (op : Op) (db : DB) :
    ∀ c ∈ (stepOp op db).configs, c ∈ db.configs ∨
      (c.configType = "refresh_tokens" ∧ opIssuesRefresh op c.token = true) ∨
      (c.configType = "password_reset_tokens" ∧ opIssuesReset op c.token = true) := by
  intro c hc
  cases op with
  | register newId name email password ent roleId now =>
    simp only [stepOp, registerOp] at hc
    split at hc
    · exact Or.inl hc
    · split at hc
      · exact Or.inl hc
      · rename_i user db1 hcreate
        obtain ⟨hid, hent, hcfg⟩ := createUser_spec hcreate
        split at hc
        · exact Or.inl (hcfg ▸ hc)
        · rename_i db2 hsave
          obtain ⟨E, hE⟩ := saveRefreshToken_spec hsave
          rw [hE, hcfg, List.mem_append] at hc
          rcases hc with hc | hc
          · exact Or.inl hc
          · rw [List.mem_singleton] at hc
            subst hc
            refine Or.inr (Or.inl ⟨rfl, ?_⟩)
            simp [opIssuesRefresh, generateRefreshToken, hid, hent]
  | login email password now =>
    rw [stepOp, loginOp_snd] at hc
    exact Or.inl hc
  | logout tok =>
    cases tok with
    | none => exact Or.inl hc
    | some t =>
      simp only [stepOp, logoutOp, removeRefreshToken] at hc
      exact Or.inl (List.mem_of_mem_filter hc)
  | refresh tok now =>
    rw [stepOp, refreshOp_snd] at hc
    exact Or.inl hc
  | forgot email rt now =>
    simp only [stepOp, forgotPasswordOp] at hc
    split at hc
    · exact Or.inl hc
    · rename_i user hfind
      split at hc
      · exact Or.inl hc
      · rename_i db1 hsave
        obtain ⟨E, hE⟩ := savePasswordResetToken_spec hsave
        rw [hE, List.mem_append] at hc
        rcases hc with hc | hc
        · exact Or.inl hc
        · rw [List.mem_singleton] at hc
          subst hc
          refine Or.inr (Or.inr ⟨rfl, ?_⟩)
          simp [opIssuesReset]
  | resetPw tok pw now =>
    simp only [stepOp] at hc
    rcases resetPasswordOp_configs tok pw now db with h | h
    · rw [h] at hc; exact Or.inl hc
    · rw [h] at hc; exact Or.inl (List.mem_of_mem_filter hc)
  | changePw uid cur next =>
    simp only [stepOp] at hc
    rw [changePasswordOp_configs] at hc
    exact Or.inl hc
  | deleteAccount uid =>
    simp only [stepOp, deleteAccountOp, deleteUser, removeAllUserRefreshTokens] at hc
    exact Or.inl (List.mem_of_mem_filter hc)
  | sweep now =>
    simp only [stepOp, cleanupExpiredTokens] at hc
    exact Or.inl (List.mem_of_mem_filter (List.mem_of_mem_filter hc))

/-- An operation that does not issue a given refresh-token value cannot make
it appear in the store. -/
theorem hasRefreshTok_stepOp {tok : TokenVal} {op : Op} {db : DB}
    (h : hasRefreshTok tok db = false) (hop : opIssuesRefresh op tok = false) :
    hasRefreshTok tok (stepOp op db) = false := by
  rw [hasRefreshTok, List.any_eq_false]
  intro c hcmem hcon
  simp only [Bool.and_eq_true, beq_iff_eq] at hcon
  rcases stepOp_configs_sub op db c hcmem with hmem | ⟨hty, hiss⟩ | ⟨hty, _⟩
  · rw [hasRefreshTok, List.any_eq_false] at h
    exact h c hmem (by simp [Bool.and_eq_true, beq_iff_eq, hcon.1, hcon.2])
  · rw [hcon.2, hop] at hiss
    exact Bool.false_ne_true hiss
  · rw [hty] at hcon
    exact absurd hcon.1 (by decide)

/-- An operation that does not issue a given reset-token value cannot make
it appear in the store. -/
theorem hasResetTok_stepOp {tok : TokenVal} {op : Op} {db : DB}
    (h : hasResetTok tok db = false) (hop : opIssuesReset op tok = false) :
    hasResetTok tok (stepOp op db) = false := by
  rw [hasResetTok, List.any_eq_false]
  intro c hcmem hcon
  simp only [Bool.and_eq_true, beq_iff_eq] at hcon
  rcases stepOp_configs_sub op db c hcmem with hmem | ⟨hty, _⟩ | ⟨hty, hiss⟩
  · rw [hasResetTok, List.any_eq_false] at h
    exact h c hmem (by simp [Bool.and_eq_true, beq_iff_eq, hcon.1, hcon.2])
  · rw [hty] at hcon
    exact absurd hcon.1 (by decide)
  · rw [hcon.2, hop] at hiss
    exact Bool.false_ne_true hiss

/-- Absence of a refresh-token value is preserved along any trace that never
re-issues it. -/
theorem hasRefreshTok_runOps {tok : TokenVal} {ops : List Op} {db : DB}
    (h : hasRefreshTok tok db = false)
    (hops : ∀ op ∈ ops, opIssuesRefresh op tok = false) :
    hasRefreshTok tok (runOps ops db) = false := by
  induction ops generalizing db with
  | nil => exact h
  | cons op rest ih =>
    exact ih (hasRefreshTok_stepOp h (hops op (by simp)))
      (fun o ho => hops o (by simp [ho]))

/-- Absence of a reset-token value is preserved along any trace that never
re-issues it. -/
theorem hasResetTok_runOps {tok : TokenVal} {ops : List Op} {db : DB}
    (h : hasResetTok tok db = false)
    (hops : ∀ op ∈ ops, opIssuesReset op tok = false) :
    hasResetTok tok (runOps ops db) = false := by
  induction ops generalizing db with
  | nil => exact h
  | cons op rest ih =>
    exact ih (hasResetTok_stepOp h (hops op (by simp)))
      (fun o ho => hops o (by simp [ho]))

/-- Lookup of a refresh token that is not stored fails. -/
theorem findRefreshToken_eq_none_of_absent {tok : TokenVal} {now : Nat}
    {db : DB} (h : hasRefreshTok tok db = false) :
    findRefreshToken tok now db = none := by
  unfold findRefreshToken
  have hnil : db.configs.filter
      (fun c => c.configType == "refresh_tokens" && c.token == tok) = [] := by
    rw [List.filter_eq_nil_iff]
    rw [hasRefreshTok, List.any_eq_false] at h
    exact h
  simp [hnil]

/-- A refresh call presenting a token that is not stored fails with the
store's 401 response, whatever the token's signature or embedded expiry. -/
theorem refreshOp_fails_of_absent {tok : TokenVal} {now : Nat} {db : DB}
    (h : hasRefreshTok tok db = false) :
    (refreshOp (some tok) now db).1 = .err 401 "Invalid refresh token" := by
  unfold refreshOp
  cases hv : jwtVerifyUserId tok JWT_REFRESH_SECRET now with
  | none => simp [hv]
  | some uid => simp [hv, findRefreshToken_eq_none_of_absent h]

/-- Consuming a reset token that is not stored fails and changes nothing. -/
theorem resetPasswordWithToken_fails_of_absent {tok : TokenVal} {pw : String}
    {now : Nat} {db : DB} (h : hasResetTok tok db = false) :
    resetPasswordWithToken tok pw now db = (false, db) := by
  unfold resetPasswordWithToken
  have hnil : db.configs.filter
      (fun c => c.configType == "password_reset_tokens" && c.token == tok) = [] := by
    rw [List.filter_eq_nil_iff]
    rw [hasResetTok, List.any_eq_false] at h
    exact h
  simp [hnil]

/-- Controller-level version of `resetPasswordWithToken_fails_of_absent`
for any password that passes the length pre-check. -/
theorem resetPasswordOp_fails_of_absent {tok : TokenVal} {pw : String}
    {now : Nat} {db : DB} (h : hasResetTok tok db = false)
    (hlen : 6 ≤ pw.length) :
    (resetPasswordOp tok pw now db).1 = ⟨400, "Invalid or expired reset token"⟩ := by
  unfold resetPasswordOp
  rw [if_neg (by omega)]
  rw [resetPasswordWithToken_fails_of_absent h]

/-- A successful `resetPasswordWithToken` removes every stored reset row
holding the consumed token. -/
theorem resetPasswordWithToken_true_deletes {tok : TokenVal} {pw : String}
    {now : Nat} {db db1 : DB}
    (h : resetPasswordWithToken tok pw now db = (true, db1)) :
    hasResetTok tok db1 = false := by
  unfold resetPasswordWithToken at h
  split at h
  · simp at h
  · split at h
    · simp at h
    · simp only [Prod.mk.injEq] at h
      rw [← h.2]
      exact any_filter_not_self _ _

/-- Matching at the head of a list always succeeds. -/
theorem listStartsWith_self_append (p y : List Char) :
    listStartsWith p (p ++ y) = true := by
  induction p with
  | nil => rfl
  | cons c cs ih => simp [listStartsWith, ih]

/-- Replacing a pattern that begins the list removes exactly that leading
occurrence. -/
theorem replaceFirstAux_self_append {p : List Char} (hp : p ≠ []) (y : List Char) :
    replaceFirstAux p (p ++ y) = y := by
  cases p with
  | nil => exact absurd rfl hp
  | cons c cs =>
    rw [List.cons_append]
    simp only [replaceFirstAux]
    have hsw := listStartsWith_self_append (c :: cs) y
    rw [List.cons_append] at hsw
    rw [if_pos hsw, ← List.cons_append]
    exact List.drop_left (c :: cs) y

/-- Replacing a pattern that never occurs is the identity. -/
theorem replaceFirstAux_no_occur {p l : List Char} (h : hasOccur p l = false) :
    replaceFirstAux p l = l := by
  induction l with
  | nil => rfl
  | cons c rest ih =>
    simp only [hasOccur, Bool.or_eq_false_iff] at h
    simp only [replaceFirstAux]
    rw [if_neg (by simp [h.1]), ih h.2]

/-- String-level version of `replaceFirstAux_no_occur` for the bearer
pattern. -/
theorem replaceFirst_no_occur {s : String}
    (h : hasOccur ("Bearer ".data) s.data = false) :
    replaceFirst "Bearer " s = s := by
  unfold replaceFirst
  rw [replaceFirstAux_no_occur h]

/-- String-level version of `replaceFirstAux_self_append` for the bearer
pattern. -/
theorem replaceFirst_strip (y : String) :
    replaceFirst "Bearer " ("Bearer " ++ y) = y := by
  unfold replaceFirst
  rw [String.data_append]
  rw [replaceFirstAux_self_append (by decide) y.data]

/-! Claim theorems. -/

/-- Claim C1. The claim states that every successful login persists the
issued refresh token so that an immediately subsequent refresh call
presenting it succeeds. The code does the opposite: `login` never writes to
the store (first conjunct, for all inputs), and on the concrete state
`dbAlice` a successful login returns a freshly minted refresh token (second
conjunct) whose immediate use in a refresh call is rejected with
`401 'Invalid refresh token'` (third conjunct), because `saveRefreshToken`
is only ever called from `register`. -/
theorem C1_login_issues_unsaved_refresh_token :
    (∀ (email password : String) (nowMs : Nat) (db : DB),
      (loginOp email password nowMs db).2 = db) ∧
    (loginOp "alice@x.com" "pw123" 1000 dbAlice).1 =
      .ok (generateAccessToken alice dbAlice 1000) (generateRefreshToken alice 1000) ∧
    (refreshOp (some (generateRefreshToken alice 1000)) 1000 dbAlice).1 =
      .err 401 "Invalid refresh token" :=
  ⟨loginOp_snd, by decide, by decide⟩

/-- Claim C2, counterexample. The claim states that a login with an unknown
email and a login with a known email but wrong password produce the
identical error. On the concrete state `dbAlice` the two calls both return
status 401 but with different messages (`'Invalid credentials, user not
found'` vs `'Invalid credentials, check your password'`), so the responses
are not identical. -/
theorem C2_login_error_messages_differ :
    (loginOp "bob@x.com" "pw123" 0 dbAlice).1 =
      .err 401 "Invalid credentials, user not found" ∧
    (loginOp "alice@x.com" "wrong" 0 dbAlice).1 =
      .err 401 "Invalid credentials, check your password" ∧
    (loginOp "bob@x.com" "pw123" 0 dbAlice).1 ≠
      (loginOp "alice@x.com" "wrong" 0 dbAlice).1 :=
  ⟨by decide, by decide, by decide⟩

/-- Claim C2, amended. Both failing logins return the same status 401, but
the directory-miss case and the hash-mismatch case carry two distinct fixed
messages, so the response does reveal whether the account exists. -/
theorem C2_amended_same_status_distinct_messages (db : DB)
    (email1 email2 pw1 pw2 : String) (now1 now2 : Nat) (u : UserRec)
    (h1 : findUserByEmail email1 db = none)
    (h2 : findUserByEmail email2 db = some u)
    (h3 : bcryptCompare pw2 u.passwordHash = false) :
    (loginOp email1 pw1 now1 db).1 =
      .err 401 "Invalid credentials, user not found" ∧
    (loginOp email2 pw2 now2 db).1 =
      .err 401 "Invalid credentials, check your password" := by
  constructor
  · unfold loginOp
    rw [h1]
  · unfold loginOp
    rw [h2]
    simp [h3]

/-- Claim C2, witness for the amended theorem at a concrete state. -/
theorem C2_amended_witness :
    (loginOp "carol@x.com" "whatever" 3 dbAlice).1 =
      .err 401 "Invalid credentials, user not found" ∧
    (loginOp "alice@x.com" "nope" 4 dbAlice).1 =
      .err 401 "Invalid credentials, check your password" :=
  C2_amended_same_status_distinct_messages dbAlice "carol@x.com" "alice@x.com"
    "whatever" "nope" 3 4 alice (by decide) (by decide) (by decide)

/-- Claim C3, counterexample. The claim states that account deletion removes
every stored token of the user of every kind. On `dbAliceTokens`, after
`deleteUser 1` the user's stored password-reset token is still present,
because `deleteUser` only calls `removeAllUserRefreshTokens`. -/
theorem C3_reset_token_survives_account_deletion :
    hasResetTok aliceResetTok (deleteUser 1 dbAliceTokens).2 = true ∧
    aliceResetRec ∈ ((deleteUser 1 dbAliceTokens).2).configs :=
  ⟨by decide, by decide⟩

/-- Claim C3, amended. Account deletion marks the directory entry inactive
without erasing it and deletes every stored refresh token of the user, but
leaves every stored password-reset token in place. -/
theorem C3_amended_delete_account_purges_refresh_tokens_only (db : DB)
    (uid : Nat) :
    (∀ u ∈ ((deleteUser uid db).2).users, u.id = uid → u.isActive = false) ∧
    ((deleteUser uid db).2).users.length = db.users.length ∧
    (∀ c ∈ ((deleteUser uid db).2).configs,
      ¬(c.configType = "refresh_tokens" ∧ c.userId = uid)) ∧
    (∀ c ∈ db.configs, c.configType = "password_reset_tokens" →
      c ∈ ((deleteUser uid db).2).configs) := by
  refine ⟨?_, ?_, ?_, ?_⟩
  · intro u hu hid
    simp only [deleteUser, removeAllUserRefreshTokens, List.mem_map] at hu
    obtain ⟨v, hv, hveq⟩ := hu
    by_cases hvid : (v.id == uid) = true
    · rw [if_pos hvid] at hveq
      rw [← hveq]
    · rw [if_neg hvid] at hveq
      subst hveq
      exact absurd (beq_iff_eq.mpr hid) hvid
  · simp [deleteUser, removeAllUserRefreshTokens]
  · intro c hc hcon
    simp only [deleteUser, removeAllUserRefreshTokens] at hc
    have hkeep := (List.mem_filter.mp hc).2
    rw [Bool.not_eq_true'] at hkeep
    simp [hcon.1, hcon.2] at hkeep
  · intro c hc hty
    simp only [deleteUser, removeAllUserRefreshTokens, List.mem_filter]
    have hne : ("password_reset_tokens" == "refresh_tokens") = false := by decide
    refine ⟨hc, ?_⟩
    rw [hty, hne]
    rfl

/-- Claim C3, witness for the amended theorem at a concrete state. -/
theorem C3_amended_witness :
    ((deleteUser 1 dbAliceTokens).2).users.length = dbAliceTokens.users.length ∧
    aliceResetRec ∈ ((deleteUser 1 dbAliceTokens).2).configs :=
  ⟨(C3_amended_delete_account_purges_refresh_tokens_only dbAliceTokens 1).2.1,
   (C3_amended_delete_account_purges_refresh_tokens_only dbAliceTokens 1).2.2.2
     aliceResetRec (by decide) (by decide)⟩

/-- Claim C4. After a refresh-token value is deleted via logout, every
refresh call presenting it fails with `401 'Invalid refresh token'` — even
when its signature is valid and its embedded expiry has not passed — across
any sequence of later Session Authority operations, none of which re-issues
a stored token with that value. -/
theorem C4_logged_out_refresh_token_never_succeeds (db : DB) (tok : TokenVal)
    (ops : List Op) (nowMs : Nat)
    (hops : ∀ op ∈ ops, opIssuesRefresh op tok = false) :
    (refreshOp (some tok) nowMs (runOps ops (logoutOp (some tok) db).2)).1 =
      .err 401 "Invalid refresh token" := by
  have h0 : hasRefreshTok tok (logoutOp (some tok) db).2 = false :=
    any_filter_not_self _ _
  exact refreshOp_fails_of_absent (hasRefreshTok_runOps h0 hops)

/-- Claim C4, witness: a concrete logout followed by a login and a sweep,
after which the logged-out token is still rejected. -/
theorem C4_witness :
    (refreshOp (some aliceRefreshTok) 1500
      (runOps [Op.login "alice@x.com" "pw123" 1200, Op.sweep 1300]
        (logoutOp (some aliceRefreshTok) dbAliceTokens).2)).1 =
      .err 401 "Invalid refresh token" :=
  C4_logged_out_refresh_token_never_succeeds dbAliceTokens aliceRefreshTok
    [Op.login "alice@x.com" "pw123" 1200, Op.sweep 1300] 1500 (by decide)

/-- Claim C5. A successful reset-password call deletes the consumed token
from the store as part of the call (first conjunct), and any later
reset-password call presenting the same value — after any sequence of
operations that does not re-issue it, and with a password passing the
length pre-check — fails with `400 'Invalid or expired reset token'`
(second conjunct). -/
theorem C5_consumed_reset_token_single_use (db : DB) (tok : TokenVal)
    (pw pw2 : String) (now now2 : Nat) (ops : List Op)
    (hok : (resetPasswordOp tok pw now db).1 = ⟨200, "Password reset successful"⟩)
    (hops : ∀ op ∈ ops, opIssuesReset op tok = false)
    (hlen : 6 ≤ pw2.length) :
    hasResetTok tok (resetPasswordOp tok pw now db).2 = false ∧
    (resetPasswordOp tok pw2 now2
        (runOps ops (resetPasswordOp tok pw now db).2)).1 =
      ⟨400, "Invalid or expired reset token"⟩ := by
  rcases hr : resetPasswordWithToken tok pw now db with ⟨b, db1⟩
  cases b
  · exfalso
    unfold resetPasswordOp at hok
    split at hok
    · simp at hok
    · rw [hr] at hok
      simp at hok
  · have hsnd : (resetPasswordOp tok pw now db).2 = db1 := by
      unfold resetPasswordOp
      split
      · exfalso
        unfold resetPasswordOp at hok
        rw [if_pos ‹_›] at hok
        simp at hok
      · rw [hr]
    have hdel : hasResetTok tok db1 = false :=
      resetPasswordWithToken_true_deletes hr
    rw [hsnd]
    exact ⟨hdel,
      resetPasswordOp_fails_of_absent (hasResetTok_runOps hdel hops) hlen⟩

/-- Claim C5, witness: a concrete successful reset whose token is gone
afterwards and is rejected on reuse after an unrelated forgot-password
call. -/
theorem C5_witness :
    hasResetTok aliceResetTok
      (resetPasswordOp aliceResetTok "newpass1" 0 dbAliceTokens).2 = false ∧
    (resetPasswordOp aliceResetTok "newpass2" 10
        (runOps [Op.forgot "alice@x.com" (.randomHex "other") 5]
          (resetPasswordOp aliceResetTok "newpass1" 0 dbAliceTokens).2)).1 =
      ⟨400, "Invalid or expired reset token"⟩ :=
  C5_consumed_reset_token_single_use dbAliceTokens aliceResetTok "newpass1"
    "newpass2" 0 10 [Op.forgot "alice@x.com" (.randomHex "other") 5]
    (by decide) (by decide) (by decide)

/-- Claim C6. When every stored refresh row holding a token value has an
`expiresAt` in the past at lookup time, `findRefreshToken` returns `none`:
an expired stored token is never returned even before the expiry sweep
removes it. -/
theorem C6_expired_refresh_token_lookup_returns_none (db : DB)
    (tok : TokenVal) (now : Nat)
    (h : ∀ c ∈ db.configs, c.configType = "refresh_tokens" → c.token = tok →
      c.expiresAtMs < now) :
    findRefreshToken tok now db = none := by
  unfold findRefreshToken
  rcases hl : db.configs.filter
      (fun c => c.configType == "refresh_tokens" && c.token == tok) with _ | ⟨r, t⟩
  · simp [hl]
  · have hrmem : r ∈ db.configs.filter
        (fun c => c.configType == "refresh_tokens" && c.token == tok) := by
      rw [hl]
      exact List.mem_cons_self r t
    obtain ⟨hmem, hpred⟩ := List.mem_filter.mp hrmem
    simp only [Bool.and_eq_true, beq_iff_eq] at hpred
    have hx := h r hmem hpred.1 hpred.2
    simp [hl, hx]

/-- Claim C6, witness: a stored but expired refresh token is logically
absent. -/
theorem C6_witness : findRefreshToken aliceRefreshTok 2000000 dbAliceTokens = none :=
  C6_expired_refresh_token_lookup_returns_none dbAliceTokens aliceRefreshTok
    2000000 (by decide)

/-- Claim C7. The claim states that a forgot-password call for an existing
email persists exactly one reset token and makes exactly one dispatch call
to the email collaborator. The handler indeed persists exactly one token
(third conjunct, on the concrete state `dbAlice`), but it performs no
dispatch at all on any input (first conjunct): the `emailService` call in
the source is commented out, while the response still claims a link has
been sent (second conjunct). -/
theorem C7_forgot_password_persists_token_but_never_dispatches :
    (∀ (email : String) (rt : TokenVal) (now : Nat) (db : DB),
      ((forgotPasswordOp email rt now db).1).emailsSent = []) ∧
    (forgotPasswordOp "alice@x.com" (.randomHex "a1b2") 0 dbAlice).1 =
      ⟨200, forgotMsg, []⟩ ∧
    ((forgotPasswordOp "alice@x.com" (.randomHex "a1b2") 0 dbAlice).2).configs =
      [⟨10, "password_reset_tokens", 1, .randomHex "a1b2", 3600000⟩] := by
  refine ⟨?_, by decide, by decide⟩
  intro email rt now db
  unfold forgotPasswordOp
  split
  · rfl
  · split <;> rfl

/-- Claim C8. A forgot-password call whose email has no (active) directory
entry returns the anti-enumeration success response and leaves the entire
state — user directory and token store — unchanged, with no dispatch. -/
theorem C8_forgot_password_unknown_email_no_side_effect (db : DB)
    (email : String) (rt : TokenVal) (now : Nat)
    (h : findUserByEmail email db = none) :
    forgotPasswordOp email rt now db = (⟨200, forgotMsg, []⟩, db) := by
  unfold forgotPasswordOp
  rw [h]

/-- Claim C8, witness at a concrete state. -/
theorem C8_witness :
    forgotPasswordOp "nobody@x.com" (.randomHex "zz") 7 dbAlice =
      (⟨200, forgotMsg, []⟩, dbAlice) :=
  C8_forgot_password_unknown_email_no_side_effect dbAlice "nobody@x.com"
    (.randomHex "zz") 7 (by decide)

/-- Claim C9. The request authenticator derives the bearer token by removing
only the first occurrence of the literal `"Bearer "`: a nonempty header in
which the literal never occurs is not rejected but handed verbatim to
signature verification (first conjunct), and a header of the form
`"Bearer " ++ y` has exactly that leading occurrence stripped — so the
header `"Bearer "` itself (empty remainder) is rejected as missing
(second conjunct with `y = ""`). -/
theorem C9_bearer_token_extraction {ρ : Type} (verify : String → Option ρ) :
    (∀ s : String, hasOccur ("Bearer ".data) s.data = false → s ≠ "" →
      authMiddleware verify (some s) = verdict (verify s)) ∧
    (∀ y : String, authMiddleware verify (some ("Bearer " ++ y)) =
      if y = "" then .missingToken else verdict (verify y)) := by
  constructor
  · intro s hocc hne
    simp only [authMiddleware]
    rw [replaceFirst_no_occur hocc]
    rw [if_neg (by simpa [beq_iff_eq] using hne)]
  · intro y
    simp only [authMiddleware]
    rw [replaceFirst_strip]
    by_cases hy : y = ""
    · subst hy
      simp
    · rw [if_neg (by simpa [beq_iff_eq] using hy), if_neg hy]

/-- Claim C9, witness: a prefix-less header verifies verbatim, a doubled
prefix loses only its first occurrence, and the bare prefix is rejected as
missing. -/
theorem C9_witness :
    authMiddleware vTest (some "tok123") = .authorized 1 ∧
    authMiddleware vTest (some ("Bearer " ++ "Bearer tok123")) = .invalidToken ∧
    authMiddleware vTest (some ("Bearer " ++ "")) = .missingToken :=
  ⟨((C9_bearer_token_extraction vTest).1 "tok123" (by decide) (by decide)).trans
      (by decide),
   ((C9_bearer_token_extraction vTest).2 "Bearer tok123").trans (by decide),
   ((C9_bearer_token_extraction vTest).2 "").trans (by decide)⟩

/-- Claim C10. Directory lookups filter on `is_active`, so once every row
for a user is inactive, login with that user's email fails with the
user-not-found credentials error, and a refresh call fails with
`401 'User not found'` even when the presented refresh token has a valid
signature, an unpassed embedded expiry, and a stored, unexpired row in the
token store. -/
theorem C10_inactive_user_rejected_on_login_and_refresh (db : DB)
    (email pw : String) (now uid eid expMs : Nat) (typ : String)
    (hLogin : ∀ u ∈ db.users, u.email = strToLower email → u.isActive = false)
    (hSig : now < expMs)
    (hStored : hasRefreshTok (.refreshJwt uid eid typ JWT_REFRESH_SECRET expMs) db = true)
    (hUnexpired : ∀ c ∈ db.configs, c.configType = "refresh_tokens" →
      c.token = .refreshJwt uid eid typ JWT_REFRESH_SECRET expMs →
      now ≤ c.expiresAtMs)
    (hInactive : ∀ u ∈ db.users, u.id = uid → u.isActive = false) :
    (loginOp email pw now db).1 = .err 401 "Invalid credentials, user not found" ∧
    (refreshOp (some (.refreshJwt uid eid typ JWT_REFRESH_SECRET expMs)) now db).1 =
      .err 401 "User not found" := by
  constructor
  · unfold loginOp findUserByEmail
    have hnil : db.users.filter
        (fun u => u.email == strToLower email && u.isActive) = [] := by
      rw [List.filter_eq_nil_iff]
      intro u hu hcon
      simp only [Bool.and_eq_true, beq_iff_eq] at hcon
      rw [hLogin u hu hcon.1] at hcon
      exact Bool.false_ne_true hcon.2
    rw [hnil]
    rfl
  · unfold refreshOp
    have hv : jwtVerifyUserId (.refreshJwt uid eid typ JWT_REFRESH_SECRET expMs)
        JWT_REFRESH_SECRET now = some uid := by
      simp [jwtVerifyUserId, hSig]
    have hfu : findUserById uid db = none := by
      unfold findUserById
      have hnil : db.users.filter (fun u => u.id == uid && u.isActive) = [] := by
        rw [List.filter_eq_nil_iff]
        intro u hu hcon
        simp only [Bool.and_eq_true, beq_iff_eq] at hcon
        rw [hInactive u hu hcon.1] at hcon
        exact Bool.false_ne_true hcon.2
      rw [hnil]
      rfl
    have hfr : ∃ r, findRefreshToken
        (.refreshJwt uid eid typ JWT_REFRESH_SECRET expMs) now db = some r := by
      unfold findRefreshToken
      rcases hl : db.configs.filter (fun c => c.configType == "refresh_tokens" &&
          c.token == TokenVal.refreshJwt uid eid typ JWT_REFRESH_SECRET expMs)
        with _ | ⟨r, t⟩
      · exfalso
        rw [hasRefreshTok, List.any_eq_true] at hStored
        obtain ⟨c, hc, hp⟩ := hStored
        have : c ∈ db.configs.filter (fun c => c.configType == "refresh_tokens" &&
            c.token == TokenVal.refreshJwt uid eid typ JWT_REFRESH_SECRET expMs) :=
          List.mem_filter.mpr ⟨hc, hp⟩
        rw [hl] at this
        exact absurd this (List.not_mem_nil c)
      · have hrmem : r ∈ db.configs.filter (fun c => c.configType == "refresh_tokens" &&
            c.token == TokenVal.refreshJwt uid eid typ JWT_REFRESH_SECRET expMs) := by
          rw [hl]
          exact List.mem_cons_self r t
        obtain ⟨hmem, hpred⟩ := List.mem_filter.mp hrmem
        simp only [Bool.and_eq_true, beq_iff_eq] at hpred
        have hx := hUnexpired r hmem hpred.1 hpred.2
        refine ⟨r, ?_⟩
        rw [hl]
        simp [Nat.not_lt.mpr hx]
    obtain ⟨r, hr⟩ := hfr
    simp [hv, hr, hfu]

/-- Claim C10, witness: the deactivated user `victor` cannot log in and
their stored, unexpired refresh token no longer refreshes. -/
theorem C10_witness :
    (loginOp "victor@x.com" "vpw" 100 dbVictor).1 =
      .err 401 "Invalid credentials, user not found" ∧
    (refreshOp (some victorRefreshTok) 100 dbVictor).1 =
      .err 401 "User not found" :=
  C10_inactive_user_rejected_on_login_and_refresh dbVictor "victor@x.com" "vpw"
    100 2 10 999999 "refresh" (by decide) (by decide) (by decide) (by decide)
    (by decide)

end RevUp
